import Mathlib

/-!
Shallow embedding of the neuronav recording library
(`src/neuronav/sensors/depthai_adapter.py`, `src/neuronav/sensors/mock.py`,
`src/neuronav/client.py`) together with proofs about the claims of the
specification.

Modelling conventions:
- Python strings are `List Char` where their characters matter (the model
  identifier and file names) and `String` where only identity matters
  (exception messages).
- Python `None`-able resource handles (`_video_writer`, `_cap`, `_device`,
  `_rgb_queue`, `_pipeline`) are `Bool` fields: `true` means non-null.
- Python exceptions are values of `PyExc`; a fallible operation returns
  `Except PyExc _` or reports a propagated exception as `Option PyExc`.
- Wall-clock time (`time.time()`) and sleep durations are exact rationals;
  availability of external resources (devices, packets, webcam frames) is
  passed in explicitly as an environment argument.
-/

namespace Neuronav

/-- Capture mode of `DepthAISensor`: the `self._mode` string constants
`'depthai' | 'webcam' | 'synthetic'` (depthai_adapter.py line 39). -/
inductive Mode
  | depthai
  | webcam
  | synthetic
  deriving DecidableEq

/-- The `mock_source : Union[int, str]` constructor argument: an integer
webcam index (`Sum.inl`) or a string such as `'synthetic'` (`Sum.inr`). -/
def MockSource : Type := Int ⊕ String

instance : DecidableEq MockSource := instDecidableEqSum

/-- The fallback rule used at construction, in `_set_mode_based_on_devices`
and in `start`:
`self._mode = "webcam" if isinstance(self.mock_source, int) else "synthetic"`. -/
def fallbackMode : MockSource → Mode
  | .inl _ => .webcam
  | .inr _ => .synthetic

/-- Constructor arguments of `DepthAISensor.__init__`
(depthai_adapter.py lines 16-25). -/
structure Config where
  model : List Char
  output_dir : List Char
  allow_mock_on_no_device : Bool
  mock_source : MockSource
  width : Int
  height : Int
  fps : Int
  deriving DecidableEq

/-- Python exceptions raised or propagated by the embedded code. -/
inductive PyExc
  | runtimeError (msg : String)
  | keyboardInterrupt
  | otherExc (msg : String)
  deriving DecidableEq

/-- The exception raised by `__init__` when depthai is unavailable and
mocking is disabled (depthai_adapter.py lines 61-64).  The spec's error
taxonomy names this category `ConfigurationError`. -/
def configurationError : PyExc :=
  .runtimeError "DepthAI is not installed and mocking is disabled. Install: pip install depthai  OR enable allow_mock_on_no_device=True"

/-- Instance attributes of a `DepthAISensor` (depthai_adapter.py lines 26-41,
52-58).  Handle fields are `true` when the Python attribute is non-null. -/
structure SensorState where
  name : List Char
  output_dir : List Char
  allow_mock_on_no_device : Bool
  mock_source : MockSource
  width : Int
  height : Int
  fps : Int
  has_depthai : Bool
  mode : Mode
  running : Bool
  pipeline : Bool
  device : Bool
  rgb_queue : Bool
  video_writer : Bool
  cap : Bool
  current_filepath : Option (List Char)
  deriving DecidableEq

/-- The attribute state set up by the first part of `__init__`
(depthai_adapter.py lines 26-41): every handle null, not running,
mode `'depthai'`. -/
def initialState (cfg : Config) (depthai_available : Bool) : SensorState :=
  { name := cfg.model
    output_dir := cfg.output_dir
    allow_mock_on_no_device := cfg.allow_mock_on_no_device
    mock_source := cfg.mock_source
    width := cfg.width
    height := cfg.height
    fps := cfg.fps
    has_depthai := depthai_available
    mode := .depthai
    running := false
    pipeline := false
    device := false
    rgb_queue := false
    video_writer := false
    cap := false
    current_filepath := none }

/-- Embedding of `DepthAISensor.__init__` (depthai_adapter.py lines 16-65).
`cv2_available` is the outcome of the `ensure_package` calls for OpenCV
(either regular or headless), `depthai_available` the outcome of
`ensure_package("depthai", "depthai")`. -/
def DepthAISensor.mk (cfg : Config) (cv2_available depthai_available : Bool) :
    Except PyExc SensorState :=
  if !cv2_available then
    .error (.runtimeError "OpenCV is required for recording video. Please install: pip install opencv-python")
  else if depthai_available then
    .ok (initialState cfg depthai_available)
  else if !cfg.allow_mock_on_no_device then
    .error configurationError
  else
    .ok { initialState cfg depthai_available with mode := fallbackMode cfg.mock_source }

/-- Embedding of `DepthAISensor._set_mode_based_on_devices`
(depthai_adapter.py lines 67-89).  `enum` is the outcome of
`dai.Device.getAllAvailableDevices()`: either the number of devices found or
a raised exception carrying its message.  When the enumeration returns an
empty list and mocking is disabled, the `RuntimeError` raised inside the
`try` block is caught by the `except Exception` handler and re-raised, so it
is modelled as a direct error result. -/
def setModeBasedOnDevices (s : SensorState) (enum : Except String Nat) :
    Except PyExc SensorState :=
  if !s.has_depthai then
    .ok s
  else
    match enum with
    | .ok ndevices =>
        if ndevices ≠ 0 then
          .ok { s with mode := .depthai }
        else if s.allow_mock_on_no_device then
          .ok { s with mode := fallbackMode s.mock_source }
        else
          .error (.runtimeError "No OAK device detected and mocking is disabled.")
    | .error e =>
        if s.allow_mock_on_no_device then
          .ok { s with mode := fallbackMode s.mock_source }
        else
          .error (.otherExc e)

/-- The three resource handles released by `DepthAISensor.cleanup`. -/
inductive Handle
  | videoWriter
  | cap
  | device
  deriving DecidableEq

/-- Per-call failure behaviour of the three native release operations invoked
by `cleanup`: `self._video_writer.release()`, `self._cap.release()`,
`self._device.close()`.  A `true` field means that call raises. -/
structure ReleaseBehavior where
  writerFails : Bool
  capFails : Bool
  deviceCloseFails : Bool
  deriving DecidableEq

/-- Third step of `cleanup` (depthai_adapter.py lines 225-230): the device
close is wrapped in `try`/`except Exception: pass`, so a failing close is
swallowed and `self._device = None` still runs. -/
def cleanupDevice (_rb : ReleaseBehavior) (s : SensorState) :
    List Handle × SensorState × Option PyExc :=
  if s.device then
    ([.device], { s with device := false }, none)
  else
    ([], s, none)

/-- Second step of `cleanup` (depthai_adapter.py lines 222-224):
`self._cap.release()` is not guarded, so a raising release propagates and
`self._cap = None` is not reached. -/
def cleanupCap (rb : ReleaseBehavior) (s : SensorState) :
    List Handle × SensorState × Option PyExc :=
  if s.cap then
    if rb.capFails then
      ([.cap], s, some (.otherExc "cap release failed"))
    else
      let r := cleanupDevice rb { s with cap := false }
      (.cap :: r.1, r.2)
  else
    cleanupDevice rb s

/-- Embedding of `DepthAISensor.cleanup` (depthai_adapter.py lines 217-231).
Returns the release attempts in order, the resulting state, and the
propagated exception if any.  `self._video_writer.release()` is not guarded,
so a raising release propagates and `self._video_writer = None` is not
reached. -/
def cleanup (rb : ReleaseBehavior) (s : SensorState) :
    List Handle × SensorState × Option PyExc :=
  if s.video_writer then
    if rb.writerFails then
      ([.videoWriter], s, some (.otherExc "writer release failed"))
    else
      let r := cleanupCap rb { s with video_writer := false }
      (.videoWriter :: r.1, r.2)
  else
    cleanupCap rb s

/-- The release attempts `cleanup` performs when no unguarded release raises:
each handle exactly once, in the fixed order video writer, cap, device,
each only if non-null. -/
def handleOrder (s : SensorState) : List Handle :=
  (if s.video_writer then [Handle.videoWriter] else []) ++
  (if s.cap then [Handle.cap] else []) ++
  (if s.device then [Handle.device] else [])

/-- Embedding of `DepthAISensor.stop` (depthai_adapter.py lines 214-215). -/
def stop (s : SensorState) : SensorState :=
  { s with running := false }

/-- Frames written to the video writer by `read` (and by `MockSensor`). -/
inductive Frame
  | device
  | camRaw (w h : Int)
  | camResized (w h : Int)
  | synth (width height : Int) (t : ℚ) (hh mm ss : Nat)
  | mockFile
  | mockSynth (t10 : Int)
  deriving DecidableEq

/-- Observable side effects of one `read` call. -/
inductive Event
  | writeFrame (f : Frame)
  | sleep (q : ℚ)
  deriving DecidableEq

/-- Per-call environment of `DepthAISensor.read`: whether
`self._rgb_queue.tryGet()` yields a packet, whether `self._cap.read()`
succeeds and with which frame shape, the wall-clock time `time.time()`,
and the local clock `datetime.now()` as hours, minutes, seconds. -/
structure ReadEnv where
  pkt_available : Bool
  cam_ok : Bool
  cam_w : Int
  cam_h : Int
  t : ℚ
  hh : Nat
  mm : Nat
  ss : Nat
  deriving DecidableEq

/-- Embedding of `DepthAISensor.read` (depthai_adapter.py lines 169-212).
Returns the boolean result, the resulting state, and the list of side
effects (frame writes and sleeps) in order. -/
def read (env : ReadEnv) (s : SensorState) : Bool × SensorState × List Event :=
  if !s.running then
    (false, s, [])
  else
    match s.mode with
    | .depthai =>
        if env.pkt_available then
          (true, s, [.writeFrame .device])
        else
          (false, s, [])
    | .webcam =>
        if !env.cam_ok then
          (false, s, [.sleep (5 / 1000)])
        else if env.cam_w ≠ s.width ∨ env.cam_h ≠ s.height then
          (true, s, [.writeFrame (.camResized s.width s.height)])
        else
          (true, s, [.writeFrame (.camRaw env.cam_w env.cam_h)])
    | .synthetic =>
        (true, s,
          [.writeFrame (.synth s.width s.height env.t env.hh env.mm env.ss),
           .sleep (1 / ((max 1 s.fps : Int) : ℚ))])

/-- Iterated `read` calls: the list of results, the final state and the
concatenated side effects. -/
def readSeq : List ReadEnv → SensorState → List Bool × SensorState × List Event
  | [], s => ([], s, [])
  | e :: es, s =>
      let r := read e s
      let rest := readSeq es r.2.1
      (r.1 :: rest.1, rest.2.1, r.2.2 ++ rest.2.2)

/-- Instance attributes of a `MockSensor` (mock.py lines 14-31). -/
structure MockState where
  source : Option (List Char)
  output_dir : List Char
  cap : Bool
  video_writer : Bool
  running : Bool
  fps : Int
  width : Int
  height : Int
  deriving DecidableEq

/-- Embedding of `MockSensor.read` (mock.py lines 72-81).  `frameOpt` is
what `_next_frame()` would return on this call (`none` for Python `None`). -/
def mockRead (frameOpt : Option Frame) (m : MockState) :
    Bool × MockState × List Event :=
  if !m.running then
    (false, m, [])
  else
    match frameOpt with
    | none => (false, m, [])
    | some f => (true, m, [.writeFrame f, .sleep (1 / (m.fps : ℚ))])

/-- Observable calls `NeuronavClient.record` makes on its sensor, plus the
interrupt log line. -/
inductive RecEvent
  | start
  | read
  | logInterrupt
  | stop
  | cleanup
  deriving DecidableEq

/-- How one execution of the `record` try-block terminates
(client.py lines 19-25): `sensor.start()` may raise `KeyboardInterrupt` or
another exception; otherwise the loop runs some number of completed
`sensor.read()` calls and then exits via the duration check, via a
`KeyboardInterrupt`, or via another exception raised during a read. -/
inductive RunOutcome
  | startInterrupted
  | startFailed (e : String)
  | expiry (n : Nat)
  | interrupted (n : Nat)
  | readFailed (n : Nat) (e : String)
  deriving DecidableEq

/-- Embedding of `NeuronavClient.record` (client.py lines 15-31) as the
event trace of one execution together with the exception it propagates, if
any: `except KeyboardInterrupt` logs and swallows, the `finally` block runs
`sensor.stop()` then `sensor.cleanup()` on every path, and any other
exception propagates after the `finally` block. -/
def record (oc : RunOutcome) : List RecEvent × Option PyExc :=
  match oc with
  | .startInterrupted =>
      ([.start, .logInterrupt, .stop, .cleanup], none)
  | .startFailed e =>
      ([.start, .stop, .cleanup], some (.otherExc e))
  | .expiry n =>
      (.start :: (List.replicate n .read ++ [.stop, .cleanup]), none)
  | .interrupted n =>
      (.start :: (List.replicate n .read ++ [.logInterrupt, .stop, .cleanup]), none)
  | .readFailed n e =>
      (.start :: (List.replicate n .read ++ [.read, .stop, .cleanup]), some (.otherExc e))

/-- Python's `%` on rationals with a positive divisor:
`a % b = a - b * floor(a / b)`. -/
def pymod (a b : ℚ) : ℚ := a - b * ⌊a / b⌋

/-- Python's `int()` conversion: truncation toward zero. -/
def pytrunc (q : ℚ) : Int := if 0 ≤ q then ⌊q⌋ else -⌊-q⌋

/-- The bar abscissa computed by the synthetic branch of `read`
(depthai_adapter.py line 202): `x = int((t*100) % self._width)`. -/
def barX (width : Int) (t : ℚ) : Int := pytrunc (pymod (t * 100) (width : ℚ))

/-- The set of column indices painted white by
`frame[:, x:x+40, :] = 255` (depthai_adapter.py line 203): NumPy slicing
clips the slice `x:x+40` at the frame width, with no wrap-around. -/
def barCols (width : Int) (t : ℚ) : Finset ℕ :=
  (Finset.range width.toNat).filter fun c =>
    barX width t ≤ (c : Int) ∧ (c : Int) < barX width t + 40

/-- Number of painted columns of the synthetic bar. -/
def barWidth (width : Int) (t : ℚ) : ℕ := (barCols width t).card

/-- The model identifier as it appears in the output file name
(depthai_adapter.py line 119): `self.name.replace('-', '_')` — dashes
become underscores and nothing else changes. -/
def normalizeModel (m : List Char) : List Char :=
  m.map fun c => if c = '-' then '_' else c

/-- Modelled from the claim's words, for comparison with `normalizeModel`:
normalization of every non-alphanumeric character of the model identifier. -/
def specNormalizeModel (m : List Char) : List Char :=
  m.map fun c => if c.isAlphanum then c else '_'

/-- The `mode_tag` string interpolated into the file name
(depthai_adapter.py line 118). -/
def modeTag : Mode → List Char
  | .depthai => "depthai".data
  | .webcam => "webcam".data
  | .synthetic => "synthetic".data

/-- The file name built by `DepthAISensor._open_writer`
(depthai_adapter.py line 119):
`f"{ts}_{self.name.replace('-', '_')}_{mode_tag}.mp4"`. -/
def makeFilename (ts model : List Char) (mode : Mode) : List Char :=
  ts ++ '_' :: normalizeModel model ++ '_' :: modeTag mode ++ ".mp4".data

/-- The full output path of `_open_writer` (depthai_adapter.py line 120):
`os.path.join(self.output_dir, filename)` on a POSIX path. -/
def openWriterPath (ts : List Char) (s : SensorState) : List Char :=
  s.output_dir ++ '/' :: makeFilename ts s.name s.mode

/-- Embedding of `DepthAISensor._open_writer` (depthai_adapter.py lines
116-130).  `ts` is `datetime.now().strftime("%Y%m%d_%H%M%S")` and
`writerOpens` is the outcome of `self._video_writer.isOpened()`.  The
writer attribute is assigned before the `isOpened` check, so on failure the
state keeps a non-null writer and `_current_filepath` is not set. -/
def openWriter (ts : List Char) (writerOpens : Bool) (s : SensorState) :
    (List Char × SensorState) ⊕ (SensorState × PyExc) :=
  let path := openWriterPath ts s
  if writerOpens then
    .inl (path, { s with video_writer := true, current_filepath := some path })
  else
    .inr ({ s with video_writer := true },
          .runtimeError "Failed to open video writer.")

lemma pymod_nonneg (a b : ℚ) (hb : 0 < b) : 0 ≤ pymod a b := by
  have h := Int.floor_le (a / b)
  have h2 : b * (⌊a / b⌋ : ℚ) ≤ b * (a / b) := mul_le_mul_of_nonneg_left h hb.le
  have h3 : b * (a / b) = a := by field_simp
  simp only [pymod]
  linarith

lemma pymod_lt (a b : ℚ) (hb : 0 < b) : pymod a b < b := by
  have h := Int.lt_floor_add_one (a / b)
  have h2 : b * (a / b) < b * ((⌊a / b⌋ : ℚ) + 1) := by
    exact mul_lt_mul_of_pos_left h hb
  have h3 : b * (a / b) = a := by field_simp
  simp only [pymod]
  nlinarith

lemma floor_pymod (a : ℚ) (w : ℤ) (hw : 0 < w) :
    ⌊pymod a (w : ℚ)⌋ = ⌊a⌋ % w := by
  have hwq : (0 : ℚ) < (w : ℚ) := by exact_mod_cast hw
  have hnn := pymod_nonneg a w hwq
  have hlt := pymod_lt a w hwq
  have hfl : ⌊pymod a (w : ℚ)⌋ = ⌊a⌋ - w * ⌊a / (w : ℚ)⌋ := by
    have he : pymod a (w : ℚ) = a - ((w * ⌊a / (w : ℚ)⌋ : ℤ) : ℚ) := by
      simp only [pymod]
      push_cast
      ring
    rw [he, Int.floor_sub_int]
  have h0 : 0 ≤ ⌊pymod a (w : ℚ)⌋ := Int.floor_nonneg.2 hnn
  have h1 : ⌊pymod a (w : ℚ)⌋ < w := Int.floor_lt.2 (by exact_mod_cast hlt)
  have h2 : ⌊a⌋ % w = ⌊pymod a (w : ℚ)⌋ % w := by
    rw [hfl]
    have : ⌊a⌋ = ⌊a⌋ - w * ⌊a / (w : ℚ)⌋ + w * ⌊a / (w : ℚ)⌋ := by ring
    conv_lhs => rw [this]
    rw [Int.mul_comm, Int.add_mul_emod_self]
  rw [h2, Int.emod_eq_of_lt h0 h1]

lemma pytrunc_eq_floor (q : ℚ) (h : 0 ≤ q) : pytrunc q = ⌊q⌋ := by
  simp [pytrunc, h]

/-- The bar abscissa equals `floor(100 * t) mod width` for a positive width:
the truncation is a floor because the Python `%` result is nonnegative, and
flooring commutes with the modulus. -/
lemma barX_eq (width : Int) (t : ℚ) (hw : 0 < width) :
    barX width t = ⌊(100 : ℚ) * t⌋ % width := by
  have hwq : (0 : ℚ) < (width : ℚ) := by exact_mod_cast hw
  have h := pymod_nonneg (t * 100) (width : ℚ) hwq
  rw [barX, pytrunc_eq_floor _ h, floor_pymod _ _ hw, mul_comm t 100]

lemma barX_nonneg (width : Int) (t : ℚ) (hw : 0 < width) :
    0 ≤ barX width t := by
  have hwq : (0 : ℚ) < (width : ℚ) := by exact_mod_cast hw
  have h := pymod_nonneg (t * 100) (width : ℚ) hwq
  rw [barX, pytrunc_eq_floor _ h]
  exact Int.floor_nonneg.2 h

lemma barX_lt (width : Int) (t : ℚ) (hw : 0 < width) :
    barX width t < width := by
  have hwq : (0 : ℚ) < (width : ℚ) := by exact_mod_cast hw
  have h := pymod_nonneg (t * 100) (width : ℚ) hwq
  have h2 := pymod_lt (t * 100) (width : ℚ) hwq
  rw [barX, pytrunc_eq_floor _ h]
  exact Int.floor_lt.2 (by exact_mod_cast h2)

/-- The painted columns form the half-open interval from the bar abscissa to
its clipping at the frame width. -/
lemma barCols_eq (width : Int) (t : ℚ) (hw : 0 < width) :
    barCols width t =
      Finset.Ico (barX width t).toNat
        (min ((barX width t).toNat + 40) width.toNat) := by
  have h0 := barX_nonneg width t hw
  have h1 := barX_lt width t hw
  ext c
  simp only [barCols, Finset.mem_filter, Finset.mem_range, Finset.mem_Ico,
    lt_min_iff]
  constructor
  · rintro ⟨hc, hle, hlt⟩
    omega
  · rintro ⟨hle, hlt, hcw⟩
    omega

/-- The number of painted columns: 40 clipped by the right frame edge. -/
lemma barWidth_eq (width : Int) (t : ℚ) (hw : 0 < width) :
    barWidth width t = min 40 (width.toNat - (barX width t).toNat) := by
  have h0 := barX_nonneg width t hw
  have h1 := barX_lt width t hw
  rw [barWidth, barCols_eq width t hw, Nat.card_Ico]
  omega

/-- The default configuration of `test_script.py` with the default integer
webcam index `0` as `mock_source`. -/
def cfgInt : Config :=
  { model := "oak-d-pro".data
    output_dir := "recordings".data
    allow_mock_on_no_device := true
    mock_source := Sum.inl 0
    width := 1280
    height := 720
    fps := 30 }

/-- Same configuration with the string sentinel `'synthetic'`. -/
def cfgSynth : Config := { cfgInt with mock_source := Sum.inr "synthetic" }

/-- Same configuration with fallback disabled. -/
def cfgNoFallback : Config := { cfgInt with allow_mock_on_no_device := false }

/-- A sensor holding all three handles, as after a started depthai session. -/
def sAllHandles : SensorState :=
  { initialState cfgInt true with
      running := true
      video_writer := true
      cap := true
      device := true
      rgb_queue := true }

/-- A running synthetic-mode sensor. -/
def sSynth : SensorState :=
  { initialState cfgInt false with
      mode := Mode.synthetic
      running := true
      video_writer := true }

/-- A running synthetic-mode sensor with a nonsensical configured frame
rate. -/
def sSynthNegFps : SensorState := { sSynth with fps := -2 }

/-- A running depthai-mode sensor. -/
def sDepthai : SensorState :=
  { initialState cfgInt true with
      running := true
      video_writer := true
      device := true
      rgb_queue := true }

/-- A read environment at wall-clock time 12.7 s, local time 12:30:45. -/
def env0 : ReadEnv :=
  { pkt_available := false
    cam_ok := false
    cam_w := 0
    cam_h := 0
    t := 127 / 10
    hh := 12
    mm := 30
    ss := 45 }

/-- The same environment with a depthai packet available. -/
def envPkt : ReadEnv := { env0 with pkt_available := true }

/-- A `MockSensor` as constructed with no source, before `start()`. -/
def m0 : MockState :=
  { source := none
    output_dir := "recordings".data
    cap := false
    video_writer := false
    running := false
    fps := 30
    width := 1280
    height := 720 }

/-- C1: when a `DepthAISensor` is constructed with depthai unavailable and
fallback allowed, construction succeeds with the capture mode pre-selected
to webcam for an integer `mock_source` and to synthetic for a string
`mock_source`; with fallback disabled, construction raises the
configuration error immediately. -/
theorem c1_ctor_fallback_mode (cfg : Config) :
    (cfg.allow_mock_on_no_device = true →
      ∃ s, DepthAISensor.mk cfg true false = .ok s ∧
        (∀ n : Int, cfg.mock_source = .inl n → s.mode = .webcam) ∧
        (∀ str : String, cfg.mock_source = .inr str → s.mode = .synthetic)) ∧
    (cfg.allow_mock_on_no_device = false →
      DepthAISensor.mk cfg true false = .error configurationError) := by
  constructor
  · intro h
    refine ⟨{ initialState cfg false with mode := fallbackMode cfg.mock_source },
      ?_, ?_, ?_⟩
    · simp [DepthAISensor.mk, h]
    · intro n hn
      simp [fallbackMode, hn]
    · intro str hs
      simp [fallbackMode, hs]
  · intro h
    simp [DepthAISensor.mk, h]

/-- Witness for C1 at the concrete configurations: integer selector,
string selector, and fallback disabled. -/
theorem c1_ctor_fallback_mode_witness :
    (∃ s, DepthAISensor.mk cfgInt true false = .ok s ∧
      (∀ n : Int, cfgInt.mock_source = .inl n → s.mode = .webcam) ∧
      (∀ str : String, cfgInt.mock_source = .inr str → s.mode = .synthetic)) ∧
    (∃ s, DepthAISensor.mk cfgSynth true false = .ok s ∧
      (∀ n : Int, cfgSynth.mock_source = .inl n → s.mode = .webcam) ∧
      (∀ str : String, cfgSynth.mock_source = .inr str → s.mode = .synthetic)) ∧
    DepthAISensor.mk cfgNoFallback true false = .error configurationError :=
  ⟨(c1_ctor_fallback_mode cfgInt).1 rfl,
   (c1_ctor_fallback_mode cfgSynth).1 rfl,
   (c1_ctor_fallback_mode cfgNoFallback).2 rfl⟩

/-- C2 counterexample: a `DepthAISensor` constructed with depthai available
but fallback disabled is reachable, and on it an exception raised during
device enumeration is re-raised by `_set_mode_based_on_devices`
(depthai_adapter.py line 89), not treated as "no device". -/
theorem c2_counterexample :
    DepthAISensor.mk cfgNoFallback true true = .ok (initialState cfgNoFallback true) ∧
    (initialState cfgNoFallback true).has_depthai = true ∧
    (initialState cfgNoFallback true).allow_mock_on_no_device = false ∧
    setModeBasedOnDevices (initialState cfgNoFallback true)
        (.error "X_LINK_ERROR") = .error (.otherExc "X_LINK_ERROR") :=
  ⟨rfl, rfl, rfl, rfl⟩

/-- C2 amended: an exception raised during device enumeration is treated as
"no device" (falling back according to the selector) when fallback is
allowed, and propagates to the caller when fallback is disabled. -/
theorem c2_enumeration_exception (s : SensorState) (e : String)
    (hd : s.has_depthai = true) :
    (s.allow_mock_on_no_device = true →
      setModeBasedOnDevices s (.error e) =
        .ok { s with mode := fallbackMode s.mock_source }) ∧
    (s.allow_mock_on_no_device = false →
      setModeBasedOnDevices s (.error e) = .error (.otherExc e)) := by
  constructor <;> intro h <;> simp [setModeBasedOnDevices, hd, h]

/-- Witness for C2 (amended) at concrete states with fallback allowed and
disabled. -/
theorem c2_enumeration_exception_witness :
    setModeBasedOnDevices (initialState cfgInt true) (.error "boom") =
      .ok { initialState cfgInt true with mode := fallbackMode cfgInt.mock_source } ∧
    setModeBasedOnDevices (initialState cfgNoFallback true) (.error "boom") =
      .error (.otherExc "boom") :=
  ⟨(c2_enumeration_exception (initialState cfgInt true) "boom" rfl).1 rfl,
   (c2_enumeration_exception (initialState cfgNoFallback true) "boom" rfl).2 rfl⟩

/-- C3 counterexample: on a sensor holding all three handles, a failing
`self._video_writer.release()` propagates out of `cleanup`
(depthai_adapter.py lines 219-220 carry no exception guard), so `cleanup`
can raise. -/
theorem c3_counterexample :
    (cleanup ⟨true, false, false⟩ sAllHandles).2.2 =
      some (.otherExc "writer release failed") := rfl

/-- C3 amended: `cleanup` releases handles in the fixed order video writer,
webcam handle, device handle, each only if non-null; a failing device close
is swallowed, but a failing release of the video writer or of the webcam
handle propagates. -/
theorem c3_cleanup_order (s : SensorState) (rb : ReleaseBehavior) :
    (rb.writerFails = false → rb.capFails = false →
      (cleanup rb s).1 = handleOrder s ∧
      (cleanup rb s).2.2 = none ∧
      (cleanup rb s).2.1.video_writer = false ∧
      (cleanup rb s).2.1.cap = false ∧
      (cleanup rb s).2.1.device = false) ∧
    (rb.writerFails = true → s.video_writer = true →
      (cleanup rb s).2.2 = some (.otherExc "writer release failed")) ∧
    (rb.capFails = true → s.video_writer = false → s.cap = true →
      (cleanup rb s).2.2 = some (.otherExc "cap release failed")) := by
  obtain ⟨w, c, d⟩ := rb
  refine ⟨fun h1 h2 => ?_, fun h1 h2 => ?_, fun h1 h2 h3 => ?_⟩
  · subst h1
    subst h2
    cases hv : s.video_writer <;> cases hc : s.cap <;> cases hd : s.device <;>
      simp [cleanup, cleanupCap, cleanupDevice, handleOrder, hv, hc, hd]
  · subst h1
    simp [cleanup, h2]
  · subst h1
    simp [cleanup, cleanupCap, h2, h3]

/-- Witness for C3 (amended) on the all-handles state: a device-close
failure is swallowed and the writer-release and cap-release failure cases
propagate. -/
theorem c3_cleanup_order_witness :
    ((cleanup ⟨false, false, true⟩ sAllHandles).1 = handleOrder sAllHandles ∧
      (cleanup ⟨false, false, true⟩ sAllHandles).2.2 = none ∧
      (cleanup ⟨false, false, true⟩ sAllHandles).2.1.video_writer = false ∧
      (cleanup ⟨false, false, true⟩ sAllHandles).2.1.cap = false ∧
      (cleanup ⟨false, false, true⟩ sAllHandles).2.1.device = false) ∧
    (cleanup ⟨true, false, false⟩ sAllHandles).2.2 =
      some (.otherExc "writer release failed") := by
  refine ⟨(c3_cleanup_order sAllHandles ⟨false, false, true⟩).1 rfl rfl, ?_⟩
  exact (c3_cleanup_order sAllHandles ⟨true, false, false⟩).2.1 rfl rfl

/-- C4: every execution of `NeuronavClient.record` — loop exit by duration
expiry, by a caught `KeyboardInterrupt` (which is not re-raised), by an
exception from `start()`, or by any other exception during a read — calls
`sensor.stop()` and `sensor.cleanup()` exactly once each, with `stop`
immediately before `cleanup` at the very end of the trace. -/
theorem c4_record_stop_cleanup (oc : RunOutcome) (n : Nat) :
    ((record oc).1.count .stop = 1 ∧
      (record oc).1.count .cleanup = 1 ∧
      ∃ pre, (record oc).1 = pre ++ [.stop, .cleanup] ∧
        RecEvent.stop ∉ pre ∧ RecEvent.cleanup ∉ pre) ∧
    (record (.interrupted n)).2 = none ∧
    (record .startInterrupted).2 = none := by
  refine ⟨?_, rfl, rfl⟩
  cases oc with
  | startInterrupted =>
      exact ⟨rfl, rfl, [.start, .logInterrupt], rfl, by decide, by decide⟩
  | startFailed e =>
      exact ⟨rfl, rfl, [.start], rfl, by decide, by decide⟩
  | expiry k =>
      refine ⟨?_, ?_, .start :: List.replicate k .read, by simp [record], ?_, ?_⟩ <;>
        simp [record, List.count_cons, List.count_append, List.count_replicate,
          List.mem_replicate]
  | interrupted k =>
      refine ⟨?_, ?_, .start :: (List.replicate k .read ++ [.logInterrupt]),
        by simp [record], ?_, ?_⟩ <;>
        simp [record, List.count_cons, List.count_append, List.count_replicate,
          List.mem_replicate]
  | readFailed k e =>
      refine ⟨?_, ?_, .start :: (List.replicate k .read ++ [.read]),
        by simp [record], ?_, ?_⟩ <;>
        simp [record, List.count_cons, List.count_append, List.count_replicate,
          List.mem_replicate]

/-- C5 counterexample: at wall-clock time t = 12.7 s with the default width
1280, the bar abscissa is 1270 and the NumPy slice `x:x+40` is clipped at
the frame edge, so only 10 columns are painted — the bar is not 40 pixels
wide. -/
theorem c5_counterexample :
    barX 1280 (127 / 10) = 1270 ∧
    barWidth 1280 (127 / 10) = 10 ∧
    barWidth 1280 (127 / 10) ≠ 40 := by
  have hx : barX 1280 (127 / 10) = 1270 := by
    norm_num [barX, pytrunc, pymod]
  have hw : barWidth 1280 (127 / 10) = 10 := by
    rw [barWidth_eq 1280 (127 / 10) (by norm_num), hx]
    rfl
  exact ⟨hx, hw, by rw [hw]; decide⟩

/-- C5 amended: a synthetic-mode `read` at time t returns true and writes
one synthetic frame carrying the clock overlay, followed by the pacing
sleep; the bar's left edge is `floor(100 t) mod W` and the bar is
`min 40 (W - x)` pixels wide — 40 pixels except when clipped by the right
frame edge. -/
theorem c5_synthetic_frame (s : SensorState) (env : ReadEnv)
    (hw : 0 < s.width) (hrun : s.running = true)
    (hmode : s.mode = Mode.synthetic) :
    (read env s).1 = true ∧
    (read env s).2.2 =
      [Event.writeFrame (Frame.synth s.width s.height env.t env.hh env.mm env.ss),
       Event.sleep (1 / ((max 1 s.fps : Int) : ℚ))] ∧
    barX s.width env.t = ⌊(100 : ℚ) * env.t⌋ % s.width ∧
    (barX s.width env.t).toNat ∈ barCols s.width env.t ∧
    barWidth s.width env.t =
      min 40 (s.width.toNat - (barX s.width env.t).toNat) := by
  refine ⟨?_, ?_, barX_eq _ _ hw, ?_, barWidth_eq _ _ hw⟩
  · simp [read, hrun, hmode]
  · simp [read, hrun, hmode]
  · rw [barCols_eq _ _ hw]
    have h0 := barX_nonneg s.width env.t hw
    have h1 := barX_lt s.width env.t hw
    simp only [Finset.mem_Ico, lt_min_iff]
    omega

/-- Witness for C5 (amended) on the running synthetic sensor at t = 12.7 s. -/
theorem c5_synthetic_frame_witness :
    (read env0 sSynth).1 = true ∧
    (read env0 sSynth).2.2 =
      [Event.writeFrame
        (Frame.synth sSynth.width sSynth.height env0.t env0.hh env0.mm env0.ss),
       Event.sleep (1 / ((max 1 sSynth.fps : Int) : ℚ))] ∧
    barX sSynth.width env0.t = ⌊(100 : ℚ) * env0.t⌋ % sSynth.width ∧
    (barX sSynth.width env0.t).toNat ∈ barCols sSynth.width env0.t ∧
    barWidth sSynth.width env0.t =
      min 40 (sSynth.width.toNat - (barX sSynth.width env0.t).toNat) :=
  c5_synthetic_frame sSynth env0 (by decide) rfl rfl

lemma cleanup_ok_clears (rb : ReleaseBehavior) (s : SensorState)
    (h : (cleanup rb s).2.2 = none) :
    (cleanup rb s).2.1.video_writer = false ∧
    (cleanup rb s).2.1.cap = false ∧
    (cleanup rb s).2.1.device = false := by
  obtain ⟨w, c, d⟩ := rb
  cases hv : s.video_writer <;> cases hc : s.cap <;> cases hd : s.device <;>
    cases w <;> cases c <;>
      simp_all [cleanup, cleanupCap, cleanupDevice]

lemma cleanup_no_handles (rb : ReleaseBehavior) (s : SensorState)
    (hv : s.video_writer = false) (hc : s.cap = false)
    (hd : s.device = false) :
    cleanup rb s = ([], s, none) := by
  simp [cleanup, cleanupCap, cleanupDevice, hv, hc, hd]

/-- C6: after a `cleanup` call that completed without raising, a second
`cleanup` call — with any release behaviour — performs no release at all
and leaves the state unchanged. -/
theorem c6_cleanup_idempotent (s : SensorState) (rb rb2 : ReleaseBehavior)
    (h : (cleanup rb s).2.2 = none) :
    cleanup rb2 (cleanup rb s).2.1 = ([], (cleanup rb s).2.1, none) := by
  obtain ⟨h1, h2, h3⟩ := cleanup_ok_clears rb s h
  exact cleanup_no_handles rb2 _ h1 h2 h3

/-- Witness for C6 on the all-handles state: first cleanup with a swallowed
device-close failure, second cleanup with every release failing. -/
theorem c6_cleanup_idempotent_witness :
    cleanup ⟨true, true, true⟩ (cleanup ⟨false, false, true⟩ sAllHandles).2.1 =
      ([], (cleanup ⟨false, false, true⟩ sAllHandles).2.1, none) :=
  c6_cleanup_idempotent sAllHandles ⟨false, false, true⟩ ⟨true, true, true⟩ rfl

lemma read_not_running (env : ReadEnv) (s : SensorState)
    (h : s.running = false) :
    read env s = (false, s, []) := by
  simp [read, h]

/-- C7: after `stop()`, the adapter is inactive and every subsequent `read`
call — in any capture mode, for any sequence of environments — returns
false, with no side effect and no state change. -/
theorem c7_stop_then_reads_false (s : SensorState) (envs : List ReadEnv) :
    readSeq envs (stop s) = (List.replicate envs.length false, stop s, []) := by
  induction envs with
  | nil => rfl
  | cons e es ih =>
      simp [readSeq, read_not_running e (stop s) rfl, ih, List.replicate_succ]

/-- C8 counterexample: for the model identifier `"a.b"` the code's file
name keeps the non-alphanumeric dot unchanged, differing from the file name
that would result from normalizing every non-alphanumeric character. -/
theorem c8_counterexample :
    makeFilename "20260101_120000".data "a.b".data Mode.synthetic ≠
      "20260101_120000".data ++ '_' :: specNormalizeModel "a.b".data ++
        '_' :: modeTag Mode.synthetic ++ ".mp4".data ∧
    '.' ∈ normalizeModel "a.b".data ∧
    ('.' : Char).isAlphanum = false := by
  refine ⟨by decide, by decide, by decide⟩

/-- C8 amended: the output path is
`{output_dir}/{timestamp}_{model}_{mode}.mp4` where exactly the dashes of
the model identifier become underscores: the normalization is
length-preserving and position-wise maps `'-'` to `'_'` and leaves every
other character — alphanumeric or not — unchanged. -/
theorem c8_filename (ts model : List Char) (mode : Mode) (s : SensorState)
    (i : Nat) :
    makeFilename ts model mode =
      ts ++ '_' :: normalizeModel model ++ '_' :: modeTag mode ++ ".mp4".data ∧
    openWriterPath ts s = s.output_dir ++ '/' :: makeFilename ts s.name s.mode ∧
    (normalizeModel model).length = model.length ∧
    '-' ∉ normalizeModel model ∧
    (normalizeModel model)[i]? =
      (model[i]?).map fun c => if c = '-' then '_' else c := by
  refine ⟨rfl, rfl, by simp [normalizeModel], ?_, ?_⟩
  · intro hmem
    obtain ⟨c, _, hEq⟩ := List.mem_map.1 hmem
    by_cases hc : c = '-' <;> simp [hc] at hEq
  · simp [normalizeModel, List.getElem?_map]

/-- C9 counterexample: with configured frame rate fps = -2, a successful
synthetic-mode `read` sleeps for 1 second (`1.0 / max(1, fps)`), not for
`1/fps` seconds. -/
theorem c9_counterexample :
    (read env0 sSynthNegFps).2.2 =
      [Event.writeFrame
        (Frame.synth sSynthNegFps.width sSynthNegFps.height env0.t
          env0.hh env0.mm env0.ss),
       Event.sleep 1] ∧
    (1 : ℚ) ≠ 1 / ((-2 : Int) : ℚ) := by
  constructor
  · simp [read, sSynthNegFps, sSynth, initialState, env0]
  · norm_num

/-- C9 amended: a synthetic-mode `read` sleeps exactly
`1 / max(1, fps)` seconds — which equals `1/fps` whenever fps ≥ 1 — and
synthetic is the only mode whose successful `read` emits any sleep. -/
theorem c9_synthetic_pacing (s : SensorState) (env : ReadEnv)
    (hrun : s.running = true) :
    (s.mode = Mode.synthetic →
      Event.sleep (1 / ((max 1 s.fps : Int) : ℚ)) ∈ (read env s).2.2 ∧
      (1 ≤ s.fps → (1 / ((max 1 s.fps : Int) : ℚ)) = 1 / (s.fps : ℚ))) ∧
    (s.mode ≠ Mode.synthetic → (read env s).1 = true →
      ∀ q, Event.sleep q ∉ (read env s).2.2) := by
  constructor
  · intro hm
    refine ⟨by simp [read, hrun, hm], fun hfps => ?_⟩
    rw [max_eq_right hfps]

  · intro hm ht q
    cases hmode : s.mode <;> simp_all [read] <;> split_ifs at * <;> simp_all

/-- Witness for C9 (amended): the running synthetic sensor with fps = 30
sleeps 1/30 s, and a successful depthai-mode read emits no sleep. -/
theorem c9_synthetic_pacing_witness :
    (Event.sleep (1 / ((max 1 sSynth.fps : Int) : ℚ)) ∈ (read env0 sSynth).2.2 ∧
      (1 / ((max 1 sSynth.fps : Int) : ℚ)) = 1 / (sSynth.fps : ℚ)) ∧
    (∀ q, Event.sleep q ∉ (read envPkt sDepthai).2.2) := by
  obtain ⟨h1, h2⟩ := (c9_synthetic_pacing sSynth env0 rfl).1 rfl
  exact ⟨⟨h1, h2 (by decide)⟩,
    (c9_synthetic_pacing sDepthai envPkt rfl).2 (by decide) rfl⟩

/-- C10: a `read` call on a non-running adapter — in particular before
`start()` was ever called — returns false, writes nothing and leaves the
state unchanged, both for `DepthAISensor` and for `MockSensor`. -/
theorem c10_read_before_start (s : SensorState) (env : ReadEnv)
    (m : MockState) (f : Option Frame)
    (hs : s.running = false) (hm : m.running = false) :
    read env s = (false, s, []) ∧ mockRead f m = (false, m, []) :=
  ⟨read_not_running env s hs, by simp [mockRead, hm]⟩

/-- Witness for C10 on the freshly constructed adapter states. -/
theorem c10_read_before_start_witness :
    read env0 (initialState cfgInt false) = (false, initialState cfgInt false, []) ∧
    mockRead none m0 = (false, m0, []) :=
  c10_read_before_start (initialState cfgInt false) env0 m0 none rfl rfl

end Neuronav
